import Mathlib

/-!
# Verification of the avanza-api-unofficial real-time subscription engine

Shallow embedding of the `Avanza` class (`lib/index.js`) of the
avanza-api-unofficial repository: the Bayeux transport state machine
(`_socketHandleMessage`, `_authenticateSocket`, `_socketSubscribe`,
`_socketUnsubscribe`, `_socketSend`, `_socketRestart`, `_socketInit`),
the backoff helper `_backoffCalc`, the public `subscribe` method and the
`authenticate` promise chain.

Modelling conventions:
* JavaScript objects used as string-keyed maps (`_socketSubscriptions`,
  `_backOffTimestamps`) are association lists preserving insertion order,
  as `Object.keys` iteration order does.
* `null`/`undefined`-able strings are `Option String`; JS truthiness of a
  string value (`if (x)`) is `jsTruthy` (false for both `none` and `""`).
* Machine time `Date.now()` is an `Int` passed explicitly to every
  operation that reads the clock; all `Date.now()` reads during one event
  handler are modelled as a single instant.
* `setTimeout`/`setInterval` scheduling is modelled by emitted `Effect`
  values plus explicit timer-fire events; the computed delays (from
  `_backoffCalc`) are recorded in the effects.
* Promise resolution/rejection of `authenticate` is an `Except` value;
  the two HTTPS round-trips are inputs (`Option AuthResponse`, `none`
  meaning the request rejected).
-/

/-! ## Constants (lib/index.js, lib/constants.js) -/

def MIN_INACTIVE_MINUTES : Int := 30

def MAX_INACTIVE_MINUTES : Int := 60 * 24

def MAX_BACKOFF_MS : Int := 2 * 60 * 1000

/-- `constants.public.POSITIONS = 'positions'` -/
def POSITIONS : String := "positions"

/-- `constants.public.ORDERS = 'orders'` -/
def ORDERS : String := "orders"

/-- `constants.public.DEALS = 'deals'` -/
def DEALS : String := "deals"

/-! ## `_backoffCalc`

The per-action state is `this._backOffTimestamps[actionName]`
(`Option Int`: `none` before the first call for that name).  The JS code
is

```
const now = Date.now()
let schedDelay = 0
if (now - this._backOffTimestamps[actionName] < MAX_BACKOFF_MS * 5) {
  schedDelay = (now - this._backOffTimestamps[actionName]) * 2 + 500
  if (schedDelay > MAX_BACKOFF_MS) {
    schedDelay = MAX_BACKOFF_MS
    this._backOffTimestamps[actionName] = now
  }
} else {
  this._backOffTimestamps[actionName] = now
}
return schedDelay
```

With an absent entry `now - undefined` is `NaN` and `NaN < x` is false,
so the else branch runs: record `now`, return 0. -/
def backoffCalcCore (prev : Option Int) (now : Int) : Int × Int :=
  match prev with
  | none => (0, now)
  | some ts =>
    if now - ts < MAX_BACKOFF_MS * 5 then
      let schedDelay := (now - ts) * 2 + 500
      if schedDelay > MAX_BACKOFF_MS then (MAX_BACKOFF_MS, now)
      else (schedDelay, ts)
    else (0, now)

/-- C4, first call: no recorded timestamp yields delay 0 and records `now`. -/
theorem backoffCalcCore_first (now : Int) : backoffCalcCore none now = (0, now) := rfl

/-- C4, hot window: the delay is `min (2*elapsed + 500) MAX_BACKOFF_MS`. -/
theorem backoffCalcCore_hot (ts now : Int) (h : now - ts < MAX_BACKOFF_MS * 5) :
    (backoffCalcCore (some ts) now).1 = min ((now - ts) * 2 + 500) MAX_BACKOFF_MS := by
  simp only [backoffCalcCore, if_pos h]
  split
  · next hgt => omega
  · next hle => omega

/-- C4, hot window: the recorded timestamp is refreshed only when the cap is hit. -/
theorem backoffCalcCore_hot_refresh (ts now : Int) (h : now - ts < MAX_BACKOFF_MS * 5)
    (hne : (backoffCalcCore (some ts) now).2 ≠ ts) :
    (backoffCalcCore (some ts) now).1 = MAX_BACKOFF_MS := by
  simp only [backoffCalcCore, if_pos h] at hne ⊢
  by_cases hc : (now - ts) * 2 + 500 > MAX_BACKOFF_MS
  · rw [if_pos hc]
  · rw [if_neg hc] at hne
    exact absurd rfl hne

/-- C4, outside the hot window: reset the timestamp and return 0. -/
theorem backoffCalcCore_cold (ts now : Int) (h : MAX_BACKOFF_MS * 5 ≤ now - ts) :
    backoffCalcCore (some ts) now = (0, now) := by
  simp only [backoffCalcCore]
  rw [if_neg (by omega)]

/-! ## Data model of the `Avanza` instance -/

/-- `WebSocket.readyState`; `opened` is the JS `OPEN` state. -/
inductive ReadyState
  | connecting
  | opened
  | closing
  | closed
deriving DecidableEq, Repr

/-- Argument of `authenticate` (each field may be absent). -/
structure Credentials where
  username : Option String := none
  password : Option String := none
  totp : Option String := none
  totpSecret : Option String := none
deriving DecidableEq, Repr

/-- `this._socketSubscriptions`: JS object mapping the subscription path to
`null` (subscribe sent / pending) or the clientId that acknowledged it. -/
abbrev SubsMap := List (String × Option String)

/-- `this._backOffTimestamps`: JS object mapping an action name to the
recorded `Date.now()` value. -/
abbrev TsMap := List (String × Int)

/-- JS truthiness of a nullable string (`none` = null/undefined, `""` falsy). -/
def jsTruthy : Option String → Bool
  | none => false
  | some s => s ≠ ""

/-- A JS object key: indexing with `undefined` uses the key `"undefined"`. -/
def jsKey : Option String → String
  | some s => s
  | none => "undefined"

/-- `obj[k] = v` on a string-keyed JS object: overwrite the (unique)
existing key in place, else append — insertion order preserved, exactly
as `Object.keys` enumeration sees it. -/
def objSet : List (String × α) → String → α → List (String × α)
  | [], k, v => [(k, v)]
  | p :: ps, k, v => if p.1 == k then (k, v) :: ps else p :: objSet ps k v

/-- `delete obj[k]`. -/
def objDelete (m : List (String × α)) (k : String) : List (String × α) :=
  m.filter (fun p => p.1 != k)

/-- `obj[k]`: `none` is JS `undefined` (key absent). -/
def objFind : List (String × α) → String → Option α
  | [], _ => none
  | p :: ps, k => if p.1 == k then some p.2 else objFind ps k

/-- The strict-inequality test `this._socketSubscriptions[substr] !==
this._socketClientId`: an absent key reads as `undefined`, which differs
from both `null` and every string. -/
def lookupNeqCid : Option (Option String) → Option String → Bool
  | none, _ => true
  | some v, cid => v != cid

/-- The fields of the `Avanza` instance relevant to the subscription
engine, with the constructor's initial values as defaults.  The HTTPS
cookie jar and the timer handles themselves are not modelled; pending
timers are tracked as booleans (`clearTimeout`/`clearInterval` resets
them, firing is an explicit event). -/
structure AvanzaState where
  credentials : Option Credentials := none
  socket : Option ReadyState := none
  authenticated : Bool := false
  authenticationTimeout : Int := MAX_INACTIVE_MINUTES
  pushSubscriptionId : Option String := none
  customerId : Option String := none
  securityToken : Option String := none
  backOffTimestamps : TsMap := []
  socketHandshakeTimerArmed : Bool := false
  socketSubscriptions : SubsMap := []
  socketMonitorActive : Bool := false
  socketLastMetaConnect : Int := 0
  adviceTimeout : Int := 30000
  socketConnected : Bool := false
  socketMessageCount : Nat := 1
  socketClientId : Option String := none
  listeners : List (String × Nat) := []
deriving DecidableEq, Repr

/-- The state built by the constructor. -/
def initState : AvanzaState := {}

/-- `this._backoffCalc(actionName)` on the instance state. -/
def backoffCalc (st : AvanzaState) (actionName : String) (now : Int) :
    Int × AvanzaState :=
  let r := backoffCalcCore (objFind st.backOffTimestamps actionName) now
  (r.1, { st with backOffTimestamps := objSet st.backOffTimestamps actionName r.2 })

/-! ## Outbound Bayeux messages -/

/-- One outbound Bayeux message; fields that a given construction site
does not set are `none` and are dropped by `JSON.stringify`. -/
structure BayeuxMsg where
  channel : String
  adviceTimeout : Option Int := none
  adviceInterval : Option Int := none
  clientId : Option String := none
  connectionType : Option String := none
  extSubscriptionId : Option String := none
  id : Option Nat := none
  minimumVersion : Option String := none
  supportedConnectionTypes : List String := []
  subscription : Option String := none
  version : Option String := none
deriving DecidableEq, Repr

/-- One websocket frame: `JSON.stringify([data])`. -/
abbrev Frame := List BayeuxMsg

/-- The `/meta/connect` message sent from the `/meta/connect` success
branch and from `_authenticateSocket` when a clientId is already held. -/
def connectMsg (cid : Option String) (count : Nat) : BayeuxMsg :=
  { channel := "/meta/connect", clientId := cid,
    connectionType := some "websocket", id := some count }

/-- The `/meta/connect` message sent on handshake success
(`advice: { timeout: 0 }`). -/
def connectAdvisedMsg (cid : Option String) (count : Nat) : BayeuxMsg :=
  { channel := "/meta/connect", adviceTimeout := some 0, clientId := cid,
    connectionType := some "websocket", id := some count }

/-- The `/meta/subscribe` message built by `_socketSubscribe`. -/
def subscribeMsg (cid : Option String) (count : Nat) (s : String) : BayeuxMsg :=
  { channel := "/meta/subscribe", clientId := cid, id := some count,
    subscription := some s }

/-- The `/meta/unsubscribe` message built by `_socketUnsubscribe`. -/
def unsubscribeMsg (cid : Option String) (count : Nat) (s : String) : BayeuxMsg :=
  { channel := "/meta/unsubscribe", clientId := cid, id := some count,
    subscription := some s }

/-- The `/meta/handshake` message sent by the handshake timer callback.
The source sets `id: this._socketMessageCounter`, but the instance field
is named `_socketMessageCount`; `_socketMessageCounter` is never
assigned anywhere, so the id is `undefined` (`none`) and the serialized
frame carries no id member. -/
def handshakeMsg (push : Option String) : BayeuxMsg :=
  { channel := "/meta/handshake",
    adviceTimeout := some 60000, adviceInterval := some 0,
    extSubscriptionId := push,
    id := none,
    minimumVersion := some "1.0",
    supportedConnectionTypes := ["websocket", "long-polling", "callback-polling"],
    version := some "1.0" }

/-! ## Socket primitives -/

/-- `_socketSend(data)`: only a present socket in the OPEN ready-state
sends; the frame is the single-element array `[data]` and the counter is
incremented after the send. -/
def socketSend (st : AvanzaState) (data : BayeuxMsg) :
    AvanzaState × List Frame :=
  if st.socket = some ReadyState.opened then
    ({ st with socketMessageCount := st.socketMessageCount + 1 }, [[data]])
  else (st, [])

/-- `_socketSubscribe(subscriptionString)`. -/
def socketSubscribe (st : AvanzaState) (subscriptionString : String) :
    AvanzaState × List Frame :=
  let st := { st with
    socketSubscriptions := objSet st.socketSubscriptions subscriptionString none }
  if st.socketConnected then
    socketSend st (subscribeMsg st.socketClientId st.socketMessageCount subscriptionString)
  else (st, [])

/-- `_socketUnsubscribe(subscriptionString)`. -/
def socketUnsubscribe (st : AvanzaState) (subscriptionString : String) :
    AvanzaState × List Frame :=
  if st.socketConnected then
    socketSend st (unsubscribeMsg st.socketClientId st.socketMessageCount subscriptionString)
  else (st, [])

/-- Timer/notification side effects requested by an operation. -/
inductive Effect
  | armHandshakeTimer (delay : Int)
  | armWebsocketRestart (delay : Int)
  | armReauth (delay : Int)
  | emit (channel : String)
deriving DecidableEq, Repr

/-- `_scheduleReauth(delay)`: `setTimeout(…, delay || this._backoffCalc('authenticate'))`
(a missing or zero delay is falsy, so the backoff value is used). -/
def scheduleReauth (st : AvanzaState) (now : Int) (delay : Option Int) :
    AvanzaState × List Effect :=
  if delay.getD 0 ≠ 0 then
    (st, [Effect.armReauth (delay.getD 0)])
  else
    let r := backoffCalc st "authenticate" now
    (r.2, [Effect.armReauth r.1])

/-- `_authenticateSocket(forceHandshake)`.  The handshake send happens
inside the armed timer callback (`handshakeTimerFire`); arming evaluates
`_backoffCalc('handshake')` immediately. -/
def authenticateSocket (st : AvanzaState) (now : Int) (forceHandshake : Bool) :
    AvanzaState × List Frame × List Effect :=
  if ¬ jsTruthy st.socketClientId ∨ forceHandshake then
    let st := { st with socketClientId := none, socketConnected := false }
    if jsTruthy st.pushSubscriptionId then
      let r := backoffCalc st "handshake" now
      ({ r.2 with socketHandshakeTimerArmed := true }, [], [Effect.armHandshakeTimer r.1])
    else (st, [], [])
  else
    let r := socketSend st (connectMsg st.socketClientId st.socketMessageCount)
    (r.1, r.2, [])

/-- The `setTimeout` callback armed by `_authenticateSocket`; it reads
`this._pushSubscriptionId` at fire time. -/
def handshakeTimerFire (st : AvanzaState) : AvanzaState × List Frame :=
  if st.socketHandshakeTimerArmed then
    let st := { st with socketHandshakeTimerArmed := false }
    socketSend st (handshakeMsg st.pushSubscriptionId)
  else (st, [])

/-- `_socketRestart()`: detach listeners and terminate the socket, clear
the connected flag, drop the handshake backoff record, clear the monitor
interval and handshake timer, and schedule `_socketInit(true)` under the
`'websocket'` backoff action. -/
def socketRestart (st : AvanzaState) (now : Int) : AvanzaState × List Effect :=
  let st := { st with
    socket := some ReadyState.closed,
    socketConnected := false,
    backOffTimestamps := objDelete st.backOffTimestamps "handshake",
    socketMonitorActive := false,
    socketHandshakeTimerArmed := false }
  let r := backoffCalc st "websocket" now
  (r.2, [Effect.armWebsocketRestart r.1])

/-- `_socketInit(restart)`: returns unchanged when a socket exists and
no restart is forced; otherwise opens a fresh socket (readyState
CONNECTING) and starts the 5-second monitor interval. -/
def socketInit (st : AvanzaState) (restart : Bool) : AvanzaState :=
  if st.socket.isSome ∧ ¬ restart then st
  else { st with socket := some ReadyState.connecting, socketMonitorActive := true }

/-! ## Inbound messages and `_socketHandleMessage` -/

/-- The `advice` member of an inbound Bayeux message. -/
structure InAdvice where
  reconnect : Option String := none
  interval : Option Int := none
deriving DecidableEq, Repr

/-- The members of an inbound Bayeux message that
`_socketHandleMessage` reads. -/
structure InMsg where
  channel : String
  successful : Bool := false
  clientId : Option String := none
  advice : Option InAdvice := none
  subscription : Option String := none
deriving DecidableEq, Repr

/-- `message.advice && message.advice.reconnect === 'handshake'`. -/
def adviceReconnectHandshake : Option InAdvice → Bool
  | none => false
  | some a => a.reconnect == some "handshake"

/-- `message.advice.interval < 0` (a missing interval compares false). -/
def intervalLtZero : Option Int → Bool
  | none => false
  | some i => i < 0

/-- `!message.advice || (message.advice.reconnect !== 'none' &&
!(message.advice.interval < 0))`. -/
def adviceAllowsConnect : Option InAdvice → Bool
  | none => true
  | some a => a.reconnect != some "none" && !(intervalLtZero a.interval)

/-- The `Object.keys(this._socketSubscriptions).forEach` loop of the
`/meta/connect` success branch, reading the map through the threaded
state as the JS loop does. -/
def resubscribeAll (st : AvanzaState) (keys : List String) :
    AvanzaState × List Frame :=
  match keys with
  | [] => (st, [])
  | k :: ks =>
    let r1 :=
      if lookupNeqCid (objFind st.socketSubscriptions k) st.socketClientId then
        socketSubscribe st k
      else (st, [])
    let r2 := resubscribeAll r1.1 ks
    (r2.1, r1.2 ++ r2.2)

/-- One iteration of the `for` loop of `_socketHandleMessage`
(the `switch (message.channel)`). -/
def handleOne (st : AvanzaState) (now : Int) (m : InMsg) :
    AvanzaState × List Frame × List Effect :=
  if m.channel = "/meta/disconnect" then
    if jsTruthy st.socketClientId then authenticateSocket st now true
    else (st, [], [])
  else if m.channel = "/meta/handshake" then
    if m.successful then
      let st := { st with socketClientId := m.clientId }
      let r := socketSend st (connectAdvisedMsg st.socketClientId st.socketMessageCount)
      (r.1, r.2, [])
    else if adviceReconnectHandshake m.advice then
      authenticateSocket st now true
    else
      let st := { st with socketClientId := none, socketConnected := false,
                          pushSubscriptionId := none }
      let r := scheduleReauth st now none
      (r.1, [], r.2)
  else if m.channel = "/meta/connect" then
    if m.successful && adviceAllowsConnect m.advice then
      let st := { st with socketLastMetaConnect := now }
      let r1 := socketSend st (connectMsg st.socketClientId st.socketMessageCount)
      let st := r1.1
      if ¬ st.socketConnected then
        let st := { st with socketConnected := true }
        let r2 := resubscribeAll st (st.socketSubscriptions.map Prod.fst)
        (r2.1, r1.2 ++ r2.2, [])
      else (st, r1.2, [])
    else if jsTruthy st.socketClientId then
      authenticateSocket st now true
    else (st, [], [])
  else if m.channel = "/meta/subscribe" then
    if m.successful then
      ({ st with socketSubscriptions :=
           objSet st.socketSubscriptions (jsKey m.subscription) st.socketClientId },
       [], [])
    else (st, [], [])
  else if m.channel = "/meta/unsubscribe" then
    if m.successful then
      ({ st with socketSubscriptions :=
           objDelete st.socketSubscriptions (jsKey m.subscription) },
       [], [])
    else (st, [], [])
  else
    (st, [], [Effect.emit m.channel])

/-- `_socketHandleMessage(data)`: iterate the inbound batch (falsy array
entries, which the loop skips, are simply not listed). -/
def handleMessage (st : AvanzaState) (now : Int) (batch : List InMsg) :
    AvanzaState × List Frame × List Effect :=
  match batch with
  | [] => (st, [], [])
  | m :: ms =>
    let r1 := handleOne st now m
    let r2 := handleMessage r1.1 now ms
    (r2.1, r1.2.1 ++ r2.2.1, r1.2.2 ++ r2.2.2)

/-! ## The public `subscribe` API -/

/-- `ids`: a single string or an array of strings. -/
inductive Ids
  | str (s : String)
  | arr (l : List String)
deriving DecidableEq, Repr

/-- The multi-id handling at the top of `subscribe`: arrays are joined
with commas on the three multi-id channels and rejected elsewhere. -/
def resolveIds (channel : String) (ids : Ids) : Except String String :=
  match ids with
  | Ids.str s => Except.ok s
  | Ids.arr l =>
    if channel = ORDERS ∨ channel = DEALS ∨ channel = POSITIONS then
      Except.ok (String.intercalate "," l)
    else
      Except.error ("Channel " ++ channel ++ " does not support multiple ids as input.")

/-- `subscribe(channel, ids, callback)` up to returning the unsubscribe
closure; a thrown `Error` is `Except.error` and leaves the instance
untouched.  The callback is an opaque token.  On success the result
carries the subscription path, the new state and the frames sent. -/
def subscribeMethod (st : AvanzaState) (channel : String) (ids : Ids) (callback : Nat) :
    Except String (String × AvanzaState × List Frame) :=
  if ¬ jsTruthy st.pushSubscriptionId then
    Except.error "Expected to be authenticated before subscribing."
  else
    match resolveIds channel ids with
    | Except.error e => Except.error e
    | Except.ok idsStr =>
      let st := if st.socket = none then socketInit st false else st
      let subscriptionString := "/" ++ channel ++ "/" ++ idsStr
      let st := { st with listeners := st.listeners ++ [(subscriptionString, callback)] }
      let r := socketSubscribe st subscriptionString
      Except.ok (subscriptionString, r.1, r.2)

/-- `this.off(event, listener)`: remove one matching listener. -/
def removeFirstListener : List (String × Nat) → String → Nat → List (String × Nat)
  | [], _, _ => []
  | p :: ps, s, c =>
    if p.1 = s ∧ p.2 = c then ps else p :: removeFirstListener ps s c

/-- The unsubscribe closure returned by `subscribe`. -/
def unsubscribeFn (st : AvanzaState) (subscriptionString : String) (callback : Nat) :
    Except String (AvanzaState × List Frame) :=
  if ¬ jsTruthy st.pushSubscriptionId then
    Except.error "Expected to be authenticated before unsubscribing."
  else if st.socket = none then
    Except.error "Expected to be initialized before unsubscribing."
  else
    let st := { st with
      listeners := removeFirstListener st.listeners subscriptionString callback }
    Except.ok (socketUnsubscribe st subscriptionString)

/-! ## `authenticate` -/

/-- `response.body.twoFactorLogin`. -/
structure TwoFactorLogin where
  method : Option String := none
  transactionId : Option String := none
deriving DecidableEq, Repr

/-- The parts of an HTTPS response that `authenticate` reads. -/
structure AuthResponse where
  twoFactorLogin : Option TwoFactorLogin := none
  securityToken : Option String := none
  pushSubscriptionId : Option String := none
  customerId : Option String := none
deriving DecidableEq, Repr

/-- The rejection reasons of `authenticate` (the `Error` messages and
HTTPS rejections, by case). -/
inductive AuthErr
  | missingCredentials
  | missingUsername
  | missingPassword
  | timeoutOutOfRange
  | unsupportedTfaMethod (m : Option String)
  | missingTotp
  | requestRejected (which : Nat)
deriving DecidableEq, Repr

/-- The `.catch` handler of the `authenticate` promise chain:
`this._authenticated = false; this._pushSubscriptionId = undefined`
(the security token is not touched there). -/
def authCatch (st : AvanzaState) : AvanzaState :=
  { st with authenticated := false, pushSubscriptionId := none }

/-- The final `.then` handler of `authenticate`: store the session
fields, arm the renewal timer with `(timeout - 1) * 60 * 1000`, restart
the socket when one exists, and resolve with the session object. -/
def authSuccessResult (st : AvanzaState) (now : Int) (r : AuthResponse) :
    AvanzaState × List Effect ×
      Except AuthErr (Option String × Option String × Option String) :=
  let st := { st with authenticated := true,
                      securityToken := r.securityToken,
                      pushSubscriptionId := r.pushSubscriptionId,
                      customerId := r.customerId }
  let r1 := scheduleReauth st now (some ((st.authenticationTimeout - 1) * 60 * 1000))
  let resolved := (r1.1.securityToken, r1.1.pushSubscriptionId, r1.1.customerId)
  if r1.1.socket.isSome then
    let r2 := socketRestart r1.1 now
    (r2.1, r1.2 ++ r2.2, Except.ok resolved)
  else (r1.1, r1.2, Except.ok resolved)

/-- `authenticate(credentials)`.  The two HTTPS round-trips are inputs
(`none` = the request rejected); `totpGen` is the external one-time-code
generator `totp(secret)` from `lib/totp.js` (its value is opaque here).
The returned `Except` is the promise outcome. -/
def authenticate (st : AvanzaState) (now : Int) (credentials : Option Credentials)
    (totpGen : String → String) (resp1 resp2 : Option AuthResponse) :
    AvanzaState × List Effect ×
      Except AuthErr (Option String × Option String × Option String) :=
  match credentials with
  | none => (st, [], Except.error AuthErr.missingCredentials)
  | some creds =>
    if ¬ jsTruthy creds.username then (st, [], Except.error AuthErr.missingUsername)
    else if ¬ jsTruthy creds.password then (st, [], Except.error AuthErr.missingPassword)
    else if ¬ (MIN_INACTIVE_MINUTES ≤ st.authenticationTimeout ∧
               st.authenticationTimeout ≤ MAX_INACTIVE_MINUTES) then
      (st, [], Except.error AuthErr.timeoutOutOfRange)
    else
      let st := { st with credentials := some creds }
      match resp1 with
      | none => (authCatch st, [], Except.error (AuthErr.requestRejected 1))
      | some r1 =>
        match r1.twoFactorLogin with
        | none => authSuccessResult st now r1
        | some tfa =>
          if tfa.method ≠ some "TOTP" then
            (authCatch st, [], Except.error (AuthErr.unsupportedTfaMethod tfa.method))
          else
            let totpCode : Option String :=
              if jsTruthy creds.totpSecret then some (totpGen (creds.totpSecret.getD ""))
              else creds.totp
            if ¬ jsTruthy totpCode then
              (authCatch st, [], Except.error AuthErr.missingTotp)
            else
              match resp2 with
              | none => (authCatch st, [], Except.error (AuthErr.requestRejected 2))
              | some r2 => authSuccessResult st now r2

/-! ## The event system -/

/-- External events driving the engine: inbound frames, socket lifecycle
callbacks, timer fires and public API calls. -/
inductive Ev
  | msg (batch : List InMsg)
  | openEvt
  | closeEvt
  | monitorTick
  | hsTimer
  | wsTimer
  | subscribeCall (channel : String) (ids : Ids) (cb : Nat)
  | unsubscribeCall (path : String) (cb : Nat)
  | authOk (r : AuthResponse)
deriving DecidableEq, Repr

/-- One event-loop callback, at clock value `now`. -/
def step (st : AvanzaState) (now : Int) (e : Ev) :
    AvanzaState × List Frame × List Effect :=
  match e with
  | Ev.msg batch => handleMessage st now batch
  | Ev.openEvt =>
    let st := { st with socket := some ReadyState.opened }
    authenticateSocket st now false
  | Ev.closeEvt =>
    let r := socketRestart st now
    (r.1, [], r.2)
  | Ev.monitorTick =>
    if ¬ st.socketMonitorActive then (st, [], [])
    else if ¬ jsTruthy st.pushSubscriptionId then (st, [], [])
    else if st.socket ≠ some ReadyState.opened then
      let r := socketRestart st now
      (r.1, [], r.2)
    else if st.socketConnected ∧ st.socketLastMetaConnect + st.adviceTimeout + 5000 < now then
      let r := socketRestart st now
      (r.1, [], r.2)
    else (st, [], [])
  | Ev.hsTimer =>
    let r := handshakeTimerFire st
    (r.1, r.2, [])
  | Ev.wsTimer => (socketInit st true, [], [])
  | Ev.subscribeCall channel ids cb =>
    match subscribeMethod st channel ids cb with
    | Except.ok r => (r.2.1, r.2.2, [])
    | Except.error _ => (st, [], [])
  | Ev.unsubscribeCall path cb =>
    match unsubscribeFn st path cb with
    | Except.ok r => (r.1, r.2, [])
    | Except.error _ => (st, [], [])
  | Ev.authOk r =>
    let a := authSuccessResult st now r
    (a.1, [], a.2.1)

/-- Run a timestamped event list from a state. -/
def runEvents (st : AvanzaState) : List (Int × Ev) → AvanzaState × List Frame × List Effect
  | [] => (st, [], [])
  | (now, e) :: es =>
    let r1 := step st now e
    let r2 := runEvents r1.1 es
    (r2.1, r1.2.1 ++ r2.2.1, r1.2.2 ++ r2.2.2)

/-- The `subscription` fields of the `/meta/subscribe` messages of a
frame sequence, in send order. -/
def subscribeMsgsOf (frames : List Frame) : List (Option String) :=
  (frames.flatten.filter (fun m => m.channel == "/meta/subscribe")).map
    (fun m => m.subscription)

/-- A successful `/meta/handshake` response carrying a clientId. -/
def hsOkMsg (c : String) : InMsg :=
  { channel := "/meta/handshake", successful := true, clientId := some c }

/-- A successful `/meta/connect` response with no advice. -/
def connOkMsg : InMsg :=
  { channel := "/meta/connect", successful := true }

/-- A successful `/meta/subscribe` acknowledgment. -/
def subAckMsg (s : String) : InMsg :=
  { channel := "/meta/subscribe", successful := true, subscription := some s }

/-! ## Association-list and frame helper lemmas -/

theorem objFind_objSet_ne {α : Type} (m : List (String × α)) (k k' : String) (v : α)
    (h : k' ≠ k) : objFind (objSet m k v) k' = objFind m k' := by
  induction m with
  | nil => simp [objSet, objFind, beq_iff_eq, Ne.symm h]
  | cons p ps ih =>
    by_cases hp : p.1 = k
    · simp [objSet, objFind, beq_iff_eq, hp, Ne.symm h]
    · simp [objSet, objFind, beq_iff_eq, hp, ih]

theorem objFind_objSet_self {α : Type} (m : List (String × α)) (k : String) (v : α) :
    objFind (objSet m k v) k = some v := by
  induction m with
  | nil => simp [objSet, objFind]
  | cons p ps ih =>
    by_cases hp : p.1 = k
    · simp [objSet, objFind, beq_iff_eq, hp]
    · simp [objSet, objFind, beq_iff_eq, hp, ih]

theorem objSet_keys_of_mem {α : Type} (m : List (String × α)) (k : String) (v : α)
    (h : k ∈ m.map Prod.fst) : (objSet m k v).map Prod.fst = m.map Prod.fst := by
  induction m with
  | nil => simp at h
  | cons p ps ih =>
    by_cases hp : p.1 = k
    · simp [objSet, beq_iff_eq, hp]
    · have : k ∈ ps.map Prod.fst := by
        simp only [List.map_cons, List.mem_cons] at h
        exact h.resolve_left (fun hk => hp hk.symm)
      simp [objSet, beq_iff_eq, hp, ih this]

theorem subscribeMsgsOf_append (a b : List Frame) :
    subscribeMsgsOf (a ++ b) = subscribeMsgsOf a ++ subscribeMsgsOf b := by
  simp [subscribeMsgsOf]

theorem subscribeMsgsOf_nil : subscribeMsgsOf [] = [] := rfl

theorem socketSubscribe_connected (st : AvanzaState) (s : String)
    (hconn : st.socketConnected = true)
    (hopen : st.socket = some ReadyState.opened) :
    socketSubscribe st s =
      ({ st with socketSubscriptions := objSet st.socketSubscriptions s none,
                 socketMessageCount := st.socketMessageCount + 1 },
       [[subscribeMsg st.socketClientId st.socketMessageCount s]]) := by
  simp [socketSubscribe, socketSend, hconn, hopen]

theorem resubscribeAll_frames (keys : List String) (st : AvanzaState)
    (hconn : st.socketConnected = true)
    (hopen : st.socket = some ReadyState.opened)
    (hnodup : keys.Nodup) :
    subscribeMsgsOf (resubscribeAll st keys).2 =
      (keys.filter (fun k =>
        lookupNeqCid (objFind st.socketSubscriptions k) st.socketClientId)).map
        (fun k => (some k : Option String)) := by
  induction keys generalizing st with
  | nil => simp [resubscribeAll, subscribeMsgsOf]
  | cons k ks ih =>
    obtain ⟨hk, hks⟩ := List.nodup_cons.mp hnodup
    by_cases hcond :
        lookupNeqCid (objFind st.socketSubscriptions k) st.socketClientId = true
    · rw [resubscribeAll]
      rw [if_pos hcond, socketSubscribe_connected st k hconn hopen]
      simp only [subscribeMsgsOf_append, List.filter_cons, hcond, if_pos]
      have hmsgs : subscribeMsgsOf [[subscribeMsg st.socketClientId st.socketMessageCount k]] =
          [some k] := by simp [subscribeMsgsOf, subscribeMsg]
      rw [hmsgs]
      have htail := ih ({ st with
          socketSubscriptions := objSet st.socketSubscriptions k none,
          socketMessageCount := st.socketMessageCount + 1 }) hconn hopen hks
      simp only at htail
      rw [htail]
      simp only [List.map_cons, List.cons.injEq, true_and]
      have hfc : List.filter (fun k' =>
            lookupNeqCid (objFind (objSet st.socketSubscriptions k none) k')
              st.socketClientId) ks =
          List.filter (fun k' =>
            lookupNeqCid (objFind st.socketSubscriptions k') st.socketClientId) ks := by
        refine List.filter_congr ?_
        intro k' hk'
        have hne : k' ≠ k := fun h => hk (h ▸ hk')
        rw [objFind_objSet_ne _ _ _ _ hne]
      rw [hfc]
      simp
    · rw [resubscribeAll]
      rw [if_neg (by simp [hcond])]
      simp only [subscribeMsgsOf_append, List.filter_cons]
      rw [ih st hconn hopen hks]
      simp [subscribeMsgsOf, hcond]

theorem keys_filter_lookup (m : SubsMap) (cid : Option String)
    (hnodup : (m.map Prod.fst).Nodup) :
    ((m.map Prod.fst).filter (fun k => lookupNeqCid (objFind m k) cid)).map
        (fun k => (some k : Option String)) =
      (m.filter (fun p => p.2 != cid)).map (fun p => (some p.1 : Option String)) := by
  induction m with
  | nil => rfl
  | cons p ps ih =>
    simp only [List.map_cons, List.nodup_cons] at hnodup
    obtain ⟨hp, hps⟩ := hnodup
    have hhead : objFind (p :: ps) p.1 = some p.2 := by simp [objFind]
    have hfc : List.filter (fun k => lookupNeqCid (objFind (p :: ps) k) cid)
          (ps.map Prod.fst) =
        List.filter (fun k => lookupNeqCid (objFind ps k) cid) (ps.map Prod.fst) := by
      refine List.filter_congr ?_
      intro k hkmem
      have hne : ¬ p.1 = k := fun h => hp (h ▸ hkmem)
      simp [objFind, beq_iff_eq, hne]
    have hlk : ∀ v cid', lookupNeqCid (some v) cid' = (v != cid') := fun _ _ => rfl
    simp only [List.map_cons, List.filter_cons, hhead, hlk]
    rw [hfc]
    by_cases hv : (p.2 != cid) = true
    · simp only [if_pos hv, List.map_cons, List.cons.injEq, true_and]
      exact ih hps
    · simp only [if_neg hv]
      exact ih hps

theorem handleOne_hsOk (st : AvanzaState) (now : Int) (c' : String)
    (hopen : st.socket = some ReadyState.opened) :
    handleOne st now (hsOkMsg c') =
      ({ st with socketClientId := some c',
                 socketMessageCount := st.socketMessageCount + 1 },
       [[connectAdvisedMsg (some c') st.socketMessageCount]], []) := by
  simp [handleOne, hsOkMsg, socketSend, hopen]

theorem handleOne_subAck (st : AvanzaState) (now : Int) (s : String) :
    handleOne st now (subAckMsg s) =
      ({ st with socketSubscriptions :=
           objSet st.socketSubscriptions s st.socketClientId }, [], []) := by
  simp [handleOne, subAckMsg, jsKey]

theorem handleOne_connOk_frames (st : AvanzaState) (now : Int)
    (hconn : st.socketConnected = false)
    (hopen : st.socket = some ReadyState.opened)
    (hnodup : (st.socketSubscriptions.map Prod.fst).Nodup) :
    subscribeMsgsOf (handleOne st now connOkMsg).2.1 =
      (st.socketSubscriptions.filter (fun p => p.2 != st.socketClientId)).map
        (fun p => (some p.1 : Option String)) := by
  have hstep : handleOne st now connOkMsg =
      (let st1 : AvanzaState := { st with socketLastMetaConnect := now,
                                          socketMessageCount := st.socketMessageCount + 1 }
       let st2 : AvanzaState := { st1 with socketConnected := true }
       let r2 := resubscribeAll st2 (st2.socketSubscriptions.map Prod.fst)
       (r2.1, [[connectMsg st.socketClientId st.socketMessageCount]] ++ r2.2, [])) := by
    simp [handleOne, connOkMsg, adviceAllowsConnect, socketSend, hconn, hopen]
  rw [hstep]
  have hc : subscribeMsgsOf [[connectMsg st.socketClientId st.socketMessageCount]] = [] := by
    simp [subscribeMsgsOf, connectMsg]
  simp only [subscribeMsgsOf_append, hc, List.nil_append]
  have hr : subscribeMsgsOf
      (resubscribeAll
        { st with socketLastMetaConnect := now,
                  socketMessageCount := st.socketMessageCount + 1,
                  socketConnected := true }
        (st.socketSubscriptions.map Prod.fst)).2 =
      ((st.socketSubscriptions.map Prod.fst).filter (fun k =>
        lookupNeqCid (objFind st.socketSubscriptions k) st.socketClientId)).map
        (fun k => (some k : Option String)) :=
    resubscribeAll_frames _ _ rfl hopen hnodup
  rw [hr, keys_filter_lookup _ _ hnodup]

theorem handleMessage_singleton (st : AvanzaState) (now : Int) (m : InMsg) :
    handleMessage st now [m] =
      ((handleOne st now m).1, (handleOne st now m).2.1, (handleOne st now m).2.2) := by
  simp [handleMessage]

theorem resync_frames (st : AvanzaState) (c' : String) (now1 now2 : Int)
    (hconn : st.socketConnected = false)
    (hopen : st.socket = some ReadyState.opened)
    (hnodup : (st.socketSubscriptions.map Prod.fst).Nodup) :
    subscribeMsgsOf ((handleMessage st now1 [hsOkMsg c']).2.1 ++
        (handleMessage (handleMessage st now1 [hsOkMsg c']).1 now2 [connOkMsg]).2.1) =
      (st.socketSubscriptions.filter (fun p => p.2 != some c')).map
        (fun p => (some p.1 : Option String)) := by
  rw [handleMessage_singleton st now1 (hsOkMsg c')]
  rw [handleOne_hsOk st now1 c' hopen]
  rw [handleMessage_singleton _ now2 connOkMsg]
  dsimp only
  have hA : subscribeMsgsOf [[connectAdvisedMsg (some c') st.socketMessageCount]] = [] := by
    simp [subscribeMsgsOf, connectAdvisedMsg]
  have hB := handleOne_connOk_frames
      ({ st with socketClientId := some c',
                 socketMessageCount := st.socketMessageCount + 1 }) now2 hconn hopen hnodup
  rw [subscribeMsgsOf_append, hA, List.nil_append, hB]

/-- An unsuccessful `/meta/connect` response. -/
def connFailMsg : InMsg :=
  { channel := "/meta/connect", successful := false }

/-- A successful `/meta/unsubscribe` acknowledgment. -/
def unsubAckMsg (s : String) : InMsg :=
  { channel := "/meta/unsubscribe", successful := true, subscription := some s }

/-- Reach a subscription confirmed under clientId "oldC", force a
liveness-monitor restart, then call the unsubscribe closure during the
interim, while the transport is disconnected. -/
def c1InterimPrefix : List (Int × Ev) :=
  [ (0, Ev.authOk { securityToken := some "tok1",
                    pushSubscriptionId := some "push1",
                    customerId := some "cust1" }),
    (1, Ev.subscribeCall "quotes" (Ids.str "19002") 7),
    (2, Ev.openEvt),
    (3, Ev.hsTimer),
    (4, Ev.msg [hsOkMsg "oldC"]),
    (5, Ev.msg [connOkMsg]),
    (6, Ev.msg [subAckMsg "/quotes/19002"]),
    (99999, Ev.monitorTick),
    (100000, Ev.unsubscribeCall ("/" ++ "quotes" ++ "/" ++ "19002") 7) ]

/-- The reconnect that follows the interim: fresh socket, a connect
attempt under the stale clientId that the server rejects, a fresh
handshake assigning "newC", then a successful connect. -/
def c1InterimSuffix : List (Int × Ev) :=
  [ (100001, Ev.wsTimer),
    (100002, Ev.openEvt),
    (100003, Ev.msg [connFailMsg]),
    (100004, Ev.hsTimer),
    (100005, Ev.msg [hsOkMsg "newC"]),
    (100006, Ev.msg [connOkMsg]) ]

/-- C1 (counterexample): the subscription is unsubscribed during the
interim — its listener is removed and the closure returns normally —
while the transport is disconnected; the unsubscribe sends nothing and
deletes nothing from the registry (deletion happens only in the
`/meta/unsubscribe` acknowledgment handler, and no acknowledgment can
arrive in the interim), so the next successful connect still sends one
subscribe message for the unsubscribed path, where the claim requires
zero. -/
theorem resync_interim_unsubscribe_counterexample :
    ((runEvents initState c1InterimPrefix).1).socketConnected = false ∧
    ((runEvents initState c1InterimPrefix).1).listeners = [] ∧
    objFind ((runEvents initState c1InterimPrefix).1).socketSubscriptions
      ("/" ++ "quotes" ++ "/" ++ "19002") = some (some "oldC") ∧
    (subscribeMsgsOf
        (runEvents (runEvents initState c1InterimPrefix).1 c1InterimSuffix).2.1).count
      (some ("/" ++ "quotes" ++ "/" ++ "19002")) = 1 :=
  ⟨rfl, rfl, rfl, rfl⟩

/-- A concrete post-restart state: two subscriptions confirmed under the
old clientId, one already confirmed under the new one. -/
def resyncState : AvanzaState :=
  { initState with
      socket := some ReadyState.opened,
      pushSubscriptionId := some "push1",
      socketClientId := some "oldC",
      socketSubscriptions :=
        [("/quotes/1", some "oldC"), ("/orders/_2", some "oldC"),
         ("/deals/_2", some "newC")] }

/-- C1 (amended): after a forced restart, the next successful connect
sends exactly one subscribe message per registry entry not confirmed
under the new clientId — none for entries already removed from the
registry or confirmed under the current clientId.  An unsubscribe call
made while the transport is disconnected removes only the registered
listener: it sends nothing and leaves the registry entry, so that path
is still resubscribed; a registry entry is deleted (and hence spared
from resync) only when its `/meta/unsubscribe` acknowledgment is
processed, which requires the unsubscribe to have been sent while
connected. -/
theorem resync_registry_spec (st : AvanzaState) (c' : String) (now1 now2 : Int)
    (path : String) (cb : Nat)
    (hconn : st.socketConnected = false)
    (hopen : st.socket = some ReadyState.opened)
    (hnodup : (st.socketSubscriptions.map Prod.fst).Nodup) :
    subscribeMsgsOf ((handleMessage st now1 [hsOkMsg c']).2.1 ++
        (handleMessage (handleMessage st now1 [hsOkMsg c']).1 now2 [connOkMsg]).2.1) =
      (st.socketSubscriptions.filter (fun p => p.2 != some c')).map
        (fun p => (some p.1 : Option String)) ∧
    (jsTruthy st.pushSubscriptionId = true →
      unsubscribeFn st path cb =
        Except.ok ({ st with listeners := removeFirstListener st.listeners path cb }, [])) ∧
    handleOne st now1 (unsubAckMsg path) =
      ({ st with socketSubscriptions := objDelete st.socketSubscriptions path }, [], []) := by
  refine ⟨resync_frames st c' now1 now2 hconn hopen hnodup, ?_, ?_⟩
  · intro hpush
    have hsock : ¬ st.socket = none := by rw [hopen]; simp
    simp [unsubscribeFn, hpush, hsock, socketUnsubscribe, hconn]
  · simp [handleOne, unsubAckMsg, jsKey]

theorem resync_registry_spec_witness :
    subscribeMsgsOf ((handleMessage resyncState 0 [hsOkMsg "newC"]).2.1 ++
        (handleMessage (handleMessage resyncState 0 [hsOkMsg "newC"]).1 1
          [connOkMsg]).2.1) =
      [some "/quotes/1", some "/orders/_2"] ∧
    unsubscribeFn resyncState "/quotes/1" 0 =
      Except.ok ({ resyncState with listeners := removeFirstListener resyncState.listeners "/quotes/1" 0 }, []) ∧
    handleOne resyncState 0 (unsubAckMsg "/quotes/1") =
      ({ resyncState with socketSubscriptions := objDelete resyncState.socketSubscriptions "/quotes/1" }, [], []) := by
  have h := resync_registry_spec resyncState "newC" 0 1 "/quotes/1" 0
    rfl rfl (by decide)
  refine ⟨?_, h.2.1 (by decide), h.2.2⟩
  rw [h.1]
  rfl

/-- The state written by the fatal-handshake-rejection branch of
`_socketHandleMessage` before it calls `_scheduleReauth()`. -/
def hsFailState (st : AvanzaState) : AvanzaState :=
  { st with socketClientId := none, socketConnected := false,
            pushSubscriptionId := none }

theorem authenticateSocket_force_effects (st : AvanzaState) (now : Int) (d : Int) :
    Effect.armReauth d ∉ (authenticateSocket st now true).2.2 := by
  simp only [authenticateSocket]
  split
  · split
    · simp
    · simp
  · simp

/-- C2: an unsuccessful handshake response whose advice says reconnect
"handshake" is handled by re-running the handshake via
`_authenticateSocket(true)` with no call into the Authenticator's
reschedule path; any other unsuccessful handshake response clears the
clientId, invalidates the push-subscription id and calls
`_scheduleReauth` exactly once. -/
theorem handshake_failure_spec (st : AvanzaState) (now : Int) (m : InMsg)
    (hch : m.channel = "/meta/handshake") (hfail : m.successful = false) :
    (adviceReconnectHandshake m.advice = true →
      handleOne st now m = authenticateSocket st now true ∧
      ∀ d, Effect.armReauth d ∉ (handleOne st now m).2.2) ∧
    (adviceReconnectHandshake m.advice = false →
      (handleOne st now m).1.socketClientId = none ∧
      (handleOne st now m).1.pushSubscriptionId = none ∧
      ∃ d, (handleOne st now m).2.2 = [Effect.armReauth d]) := by
  constructor
  · intro hadv
    have he : handleOne st now m = authenticateSocket st now true := by
      simp [handleOne, hch, hfail, hadv]
    exact ⟨he, fun d => he ▸ authenticateSocket_force_effects st now d⟩
  · intro hadv
    have he : handleOne st now m =
        ((backoffCalc (hsFailState st) "authenticate" now).2, [],
         [Effect.armReauth (backoffCalc (hsFailState st) "authenticate" now).1]) := by
      simp [handleOne, hch, hfail, hadv, scheduleReauth, hsFailState]
    rw [he]
    exact ⟨rfl, rfl, ⟨_, rfl⟩⟩

theorem handshake_failure_spec_witness :
    ({ channel := "/meta/handshake" } : InMsg).channel = "/meta/handshake" ∧
    ({ channel := "/meta/handshake" } : InMsg).successful = false ∧
    ((handleOne initState 0 { channel := "/meta/handshake" }).1.socketClientId = none ∧
     (handleOne initState 0 { channel := "/meta/handshake" }).1.pushSubscriptionId = none ∧
     ∃ d, (handleOne initState 0 { channel := "/meta/handshake" }).2.2 =
       [Effect.armReauth d]) :=
  ⟨rfl, rfl, (handshake_failure_spec initState 0 { channel := "/meta/handshake" } rfl rfl).2 rfl⟩

/-- C4: `_backoffCalc` returns 0 and records now on the first call for a
name; within the hot window (5 × the max backoff since the recorded
timestamp) it returns `min (2*elapsed + 500) MAX_BACKOFF_MS` and
refreshes the recorded timestamp only when the cap is hit; outside the
hot window it records now and returns 0. -/
theorem backoff_spec (ts now : Int) :
    backoffCalcCore none now = (0, now) ∧
    (now - ts < MAX_BACKOFF_MS * 5 →
      (backoffCalcCore (some ts) now).1 =
        min ((now - ts) * 2 + 500) MAX_BACKOFF_MS ∧
      ((backoffCalcCore (some ts) now).2 ≠ ts →
        (backoffCalcCore (some ts) now).1 = MAX_BACKOFF_MS)) ∧
    (MAX_BACKOFF_MS * 5 ≤ now - ts → backoffCalcCore (some ts) now = (0, now)) :=
  ⟨backoffCalcCore_first now,
   fun h => ⟨backoffCalcCore_hot ts now h, backoffCalcCore_hot_refresh ts now h⟩,
   backoffCalcCore_cold ts now⟩

theorem backoff_spec_witness :
    backoffCalcCore none 7 = (0, 7) ∧
    (backoffCalcCore (some 0) 1000).1 = min ((1000 - 0) * 2 + 500) MAX_BACKOFF_MS ∧
    backoffCalcCore (some 0) (MAX_BACKOFF_MS * 5) = (0, MAX_BACKOFF_MS * 5) :=
  ⟨(backoff_spec 0 7).1,
   ((backoff_spec 0 1000).2.1 (by norm_num [MAX_BACKOFF_MS])).1,
   (backoff_spec 0 (MAX_BACKOFF_MS * 5)).2.2 (by norm_num)⟩

/-- C5 (counterexample): with the recorded timestamp at 0, a call at
t = 60000 is inside the hot window, hits the cap, returns
`MAX_BACKOFF_MS` and refreshes the timestamp to 60000; an immediately
following call (same clock value, still inside the hot window relative
to the refreshed timestamp) returns only 500 < `MAX_BACKOFF_MS` — the
later delay is smaller. -/
theorem backoff_monotonicity_counterexample :
    (60000 : Int) - 0 < MAX_BACKOFF_MS * 5 ∧
    backoffCalcCore (some 0) 60000 = (MAX_BACKOFF_MS, 60000) ∧
    (60000 : Int) - 60000 < MAX_BACKOFF_MS * 5 ∧
    backoffCalcCore (some 60000) 60000 = (500, 60000) ∧
    (500 : Int) < MAX_BACKOFF_MS := by
  refine ⟨by norm_num [MAX_BACKOFF_MS], ?_, by norm_num [MAX_BACKOFF_MS], ?_,
    by norm_num [MAX_BACKOFF_MS]⟩ <;>
    norm_num [backoffCalcCore, MAX_BACKOFF_MS]

/-- C5 (amended): for two consecutive `_backoffCalc` calls for the same
action inside the hot window with non-decreasing time, the later call
returns at least the earlier delay provided the earlier call's delay was
below the cap; a call that hits the cap refreshes the recorded
timestamp, after which the delay may shrink again. -/
theorem backoff_monotone_below_cap (ts t1 t2 : Int)
    (h1 : t1 - ts < MAX_BACKOFF_MS * 5)
    (hmono : t1 ≤ t2)
    (hcap : (backoffCalcCore (some ts) t1).1 < MAX_BACKOFF_MS)
    (h2 : t2 - (backoffCalcCore (some ts) t1).2 < MAX_BACKOFF_MS * 5) :
    (backoffCalcCore (some ts) t1).1 ≤
      (backoffCalcCore (some (backoffCalcCore (some ts) t1).2) t2).1 := by
  have hc1 : ¬ ((t1 - ts) * 2 + 500 > MAX_BACKOFF_MS) := by
    intro hgt
    rw [show backoffCalcCore (some ts) t1 = (MAX_BACKOFF_MS, t1) from by
      simp only [backoffCalcCore, if_pos h1, if_pos hgt]] at hcap
    simp at hcap
  have e1 : backoffCalcCore (some ts) t1 = ((t1 - ts) * 2 + 500, ts) := by
    simp only [backoffCalcCore, if_pos h1, if_neg hc1]
  rw [e1] at h2 ⊢
  simp only at h2 ⊢
  simp only [backoffCalcCore, if_pos h2]
  by_cases hc2 : (t2 - ts) * 2 + 500 > MAX_BACKOFF_MS
  · rw [if_pos hc2]
    simp only
    omega
  · rw [if_neg hc2]
    simp only
    omega

theorem backoff_monotone_below_cap_witness :
    (1000 : Int) - 0 < MAX_BACKOFF_MS * 5 ∧ (1000 : Int) ≤ 2000 ∧
    (backoffCalcCore (some 0) 1000).1 < MAX_BACKOFF_MS ∧
    (2000 : Int) - (backoffCalcCore (some 0) 1000).2 < MAX_BACKOFF_MS * 5 ∧
    (backoffCalcCore (some 0) 1000).1 ≤
      (backoffCalcCore (some (backoffCalcCore (some 0) 1000).2) 2000).1 :=
  ⟨by norm_num [MAX_BACKOFF_MS], by norm_num,
   by norm_num [backoffCalcCore, MAX_BACKOFF_MS],
   by norm_num [backoffCalcCore, MAX_BACKOFF_MS],
   backoff_monotone_below_cap 0 1000 2000 (by norm_num [MAX_BACKOFF_MS]) (by norm_num)
     (by norm_num [backoffCalcCore, MAX_BACKOFF_MS])
     (by norm_num [backoffCalcCore, MAX_BACKOFF_MS])⟩

/-- C9 (code-bug evidence): every frame `_socketSend` emits is a
single-element array holding exactly the given message, and every
message construction site sets `id: this._socketMessageCount` — except
the handshake message, which reads the never-assigned
`_socketMessageCounter` property (the field is `_socketMessageCount`)
and therefore carries no id at all, contradicting the claim that every
outbound message, the handshake included, carries the next sequence
value. -/
theorem envelope_and_handshake_id :
    ∀ (st : AvanzaState) (m : BayeuxMsg) (push cid : Option String) (n : Nat) (s : String),
      ((socketSend st m).2 = [] ∨ (socketSend st m).2 = [[m]]) ∧
      (connectMsg cid n).id = some n ∧
      (connectAdvisedMsg cid n).id = some n ∧
      (subscribeMsg cid n s).id = some n ∧
      (unsubscribeMsg cid n s).id = some n ∧
      (handshakeMsg push).id = none := by
  intro st m push cid n s
  refine ⟨?_, rfl, rfl, rfl, rfl, rfl⟩
  by_cases h : st.socket = some ReadyState.opened
  · right; simp [socketSend, h]
  · left; simp [socketSend, h]

/-- C10: `_socketSend` with an absent socket or a socket not in the OPEN
ready-state sends nothing, leaves the sequence counter (and the whole
instance) unchanged, and returns normally — the message is silently
dropped. -/
theorem socketSend_dropped (st : AvanzaState) (data : BayeuxMsg)
    (h : st.socket ≠ some ReadyState.opened) :
    socketSend st data = (st, []) := by
  simp [socketSend, h]

theorem socketSend_dropped_witness :
    initState.socket ≠ some ReadyState.opened ∧
    socketSend initState (connectMsg none 1) = (initState, []) :=
  ⟨by decide, socketSend_dropped initState (connectMsg none 1) (by decide)⟩

/-- A live connected instance: socket open, authenticated, clientId
assigned, connect loop running. -/
def connectedState : AvanzaState :=
  { initState with
      socket := some ReadyState.opened,
      authenticated := true,
      pushSubscriptionId := some "push1",
      securityToken := some "tok1",
      socketClientId := some "cid1",
      socketConnected := true,
      socketMonitorActive := true }

/-- C7: with a push-subscription id present, `subscribe` with an array
of ids joins them with commas into the single path
`/<channel>/<id1,id2,...>` on the three multi-id channels and throws
synchronously on every other channel; without a push-subscription id
(not authenticated) both `subscribe` and the returned unsubscribe
closure throw synchronously, leaving the instance untouched. -/
theorem subscribe_multi_id_spec (st : AvanzaState) (ch : String) (l : List String)
    (ids : Ids) (cb : Nat) (path : String) :
    (jsTruthy st.pushSubscriptionId = true →
      (ch = ORDERS ∨ ch = DEALS ∨ ch = POSITIONS) →
      (subscribeMethod st ch (Ids.arr l) cb).map (fun r => r.1) =
        Except.ok ("/" ++ ch ++ "/" ++ String.intercalate "," l)) ∧
    (jsTruthy st.pushSubscriptionId = true →
      ¬ (ch = ORDERS ∨ ch = DEALS ∨ ch = POSITIONS) →
      subscribeMethod st ch (Ids.arr l) cb =
        Except.error ("Channel " ++ ch ++ " does not support multiple ids as input.")) ∧
    (jsTruthy st.pushSubscriptionId = false →
      subscribeMethod st ch ids cb =
        Except.error "Expected to be authenticated before subscribing." ∧
      unsubscribeFn st path cb =
        Except.error "Expected to be authenticated before unsubscribing.") := by
  refine ⟨?_, ?_, ?_⟩
  · intro hpush hch
    simp [subscribeMethod, resolveIds, hpush, if_pos hch, Except.map]
  · intro hpush hch
    simp [subscribeMethod, resolveIds, hpush, if_neg hch]
  · intro hpush
    constructor
    · simp [subscribeMethod, hpush]
    · simp [unsubscribeFn, hpush]

theorem subscribe_multi_id_spec_witness :
    jsTruthy connectedState.pushSubscriptionId = true ∧
    ("orders" = ORDERS ∨ "orders" = DEALS ∨ "orders" = POSITIONS) ∧
    (subscribeMethod connectedState "orders" (Ids.arr ["1", "2", "3"]) 0).map
        (fun r => r.1) = Except.ok "/orders/1,2,3" ∧
    subscribeMethod connectedState "quotes" (Ids.arr ["1", "2"]) 0 =
      Except.error "Channel quotes does not support multiple ids as input." ∧
    subscribeMethod initState "quotes" (Ids.str "1") 0 =
      Except.error "Expected to be authenticated before subscribing." ∧
    unsubscribeFn initState "/quotes/1" 0 =
      Except.error "Expected to be authenticated before unsubscribing." := by
  have hpushc : jsTruthy connectedState.pushSubscriptionId = true := by decide
  have hord : ("orders" = ORDERS ∨ "orders" = DEALS ∨ "orders" = POSITIONS) :=
    Or.inl rfl
  have hquo : ¬ ("quotes" = ORDERS ∨ "quotes" = DEALS ∨ "quotes" = POSITIONS) := by
    decide
  have h1 := (subscribe_multi_id_spec connectedState "orders" ["1", "2", "3"]
    (Ids.str "x") 0 "p").1 hpushc hord
  have h2 := (subscribe_multi_id_spec connectedState "quotes" ["1", "2"]
    (Ids.str "x") 0 "p").2.1 hpushc hquo
  have h3 := (subscribe_multi_id_spec initState "quotes" []
    (Ids.str "1") 0 "/quotes/1").2.2 (by decide)
  refine ⟨hpushc, hord, ?_, h2, h3.1, h3.2⟩
  rw [h1]
  rfl

theorem authSuccessResult_ok (st : AvanzaState) (now : Int) (r : AuthResponse) :
    ∃ v, (authSuccessResult st now r).2.2 = Except.ok v := by
  simp only [authSuccessResult]
  split
  · exact ⟨_, rfl⟩
  · exact ⟨_, rfl⟩

theorem authenticate_post_validation (st : AvanzaState) (now : Int)
    (creds : Credentials) (g : String → String) (resp1 resp2 : Option AuthResponse)
    (hu : jsTruthy creds.username = true) (hp : jsTruthy creds.password = true)
    (ht : MIN_INACTIVE_MINUTES ≤ st.authenticationTimeout ∧
          st.authenticationTimeout ≤ MAX_INACTIVE_MINUTES) :
    (∃ v, (authenticate st now (some creds) g resp1 resp2).2.2 = Except.ok v) ∨
    ((authenticate st now (some creds) g resp1 resp2).1 =
        authCatch { st with credentials := some creds } ∧
      ∃ e, (authenticate st now (some creds) g resp1 resp2).2.2 = Except.error e) := by
  simp only [authenticate, hu, hp, ht, not_true, Bool.true_eq_false, if_false,
    not_false_iff, and_self, if_true]
  cases resp1 with
  | none => exact Or.inr ⟨rfl, _, rfl⟩
  | some r1 =>
    cases htfa : r1.twoFactorLogin with
    | none =>
      simp only [htfa]
      exact Or.inl (authSuccessResult_ok _ now r1)
    | some tfa =>
      simp only [htfa]
      by_cases hm : tfa.method ≠ some "TOTP"
      · rw [if_pos hm]
        exact Or.inr ⟨rfl, _, rfl⟩
      · rw [if_neg hm]
        by_cases hcode : ¬ jsTruthy (if jsTruthy creds.totpSecret then
            some (g (creds.totpSecret.getD "")) else creds.totp)
        · rw [if_pos hcode]
          exact Or.inr ⟨rfl, _, rfl⟩
        · rw [if_neg hcode]
          cases resp2 with
          | none => exact Or.inr ⟨rfl, _, rfl⟩
          | some r2 => exact Or.inl (authSuccessResult_ok _ now r2)

/-- C8 (amended): validation failures of `authenticate` (missing
credentials, username or password, out-of-range session timeout) reject
synchronously leaving the whole instance untouched; failures of the
request chain (rejected primary request, unsupported second factor,
missing one-time code, rejected TOTP request) mark the session
unauthenticated and invalidate the push-subscription id but leave the
security token unchanged; every failure is surfaced to the caller as a
rejection. -/
theorem authenticate_failure_spec (st : AvanzaState) (now : Int)
    (creds : Credentials) (g : String → String) (resp1 resp2 : Option AuthResponse) :
    authenticate st now none g resp1 resp2 =
      (st, [], Except.error AuthErr.missingCredentials) ∧
    (jsTruthy creds.username = false →
      authenticate st now (some creds) g resp1 resp2 =
        (st, [], Except.error AuthErr.missingUsername)) ∧
    (jsTruthy creds.username = true → jsTruthy creds.password = false →
      authenticate st now (some creds) g resp1 resp2 =
        (st, [], Except.error AuthErr.missingPassword)) ∧
    (jsTruthy creds.username = true → jsTruthy creds.password = true →
      ¬ (MIN_INACTIVE_MINUTES ≤ st.authenticationTimeout ∧
         st.authenticationTimeout ≤ MAX_INACTIVE_MINUTES) →
      authenticate st now (some creds) g resp1 resp2 =
        (st, [], Except.error AuthErr.timeoutOutOfRange)) ∧
    (∀ e, (authenticate st now (some creds) g resp1 resp2).2.2 = Except.error e →
      (authenticate st now (some creds) g resp1 resp2).1.securityToken =
        st.securityToken) ∧
    (jsTruthy creds.username = true → jsTruthy creds.password = true →
      (MIN_INACTIVE_MINUTES ≤ st.authenticationTimeout ∧
       st.authenticationTimeout ≤ MAX_INACTIVE_MINUTES) →
      ∀ e, (authenticate st now (some creds) g resp1 resp2).2.2 = Except.error e →
        (authenticate st now (some creds) g resp1 resp2).1.authenticated = false ∧
        (authenticate st now (some creds) g resp1 resp2).1.pushSubscriptionId =
          none) := by
  refine ⟨rfl, ?_, ?_, ?_, ?_, ?_⟩
  · intro hu
    simp [authenticate, hu]
  · intro hu hp
    simp [authenticate, hu, hp]
  · intro hu hp ht
    simp [authenticate, hu, hp, ht]
  · intro e he
    by_cases hu : jsTruthy creds.username = true
    · by_cases hp : jsTruthy creds.password = true
      · by_cases ht : (MIN_INACTIVE_MINUTES ≤ st.authenticationTimeout ∧
            st.authenticationTimeout ≤ MAX_INACTIVE_MINUTES)
        · rcases authenticate_post_validation st now creds g resp1 resp2 hu hp ht with
            ⟨v, hv⟩ | ⟨hs, _⟩
          · rw [hv] at he
            exact absurd he (by simp)
          · rw [hs]
            rfl
        · rw [show authenticate st now (some creds) g resp1 resp2 =
              (st, [], Except.error AuthErr.timeoutOutOfRange) from by
              simp [authenticate, hu, hp, ht]]
      · rw [show authenticate st now (some creds) g resp1 resp2 =
            (st, [], Except.error AuthErr.missingPassword) from by
            simp [authenticate, hu, Bool.eq_false_iff.mpr hp]]
    · rw [show authenticate st now (some creds) g resp1 resp2 =
          (st, [], Except.error AuthErr.missingUsername) from by
          simp [authenticate, Bool.eq_false_iff.mpr hu]]
  · intro hu hp ht e he
    rcases authenticate_post_validation st now creds g resp1 resp2 hu hp ht with
      ⟨v, hv⟩ | ⟨hs, _⟩
    · rw [hv] at he
      exact absurd he (by simp)
    · rw [hs]
      exact ⟨rfl, rfl⟩

/-- An authenticated instance holding a security token. -/
def authedState : AvanzaState :=
  { initState with authenticated := true, securityToken := some "token0",
                   pushSubscriptionId := some "push0" }

/-- Credentials with no second-factor input. -/
def noTotpCreds : Credentials := { username := some "u", password := some "p" }

/-- A primary-login response demanding TOTP second-factor verification. -/
def totpDemandResp : AuthResponse :=
  { twoFactorLogin := some { method := some "TOTP", transactionId := some "t" } }

/-- C8 (counterexample): calling `authenticate` without credentials on
an authenticated instance rejects yet leaves the session marked
authenticated with its security token intact; and a request-chain
failure (second factor requested but no `totp`/`totpSecret` supplied)
unmarks the session but still does not clear the token — both
contradicting the claim that any authentication failure leaves the
session unauthenticated with the token cleared. -/
theorem authenticate_failure_counterexample :
    (authenticate authedState 0 none (fun _ => "123456") none none).2.2 =
      Except.error AuthErr.missingCredentials ∧
    (authenticate authedState 0 none (fun _ => "123456") none none).1.authenticated
      = true ∧
    (authenticate authedState 0 none (fun _ => "123456") none none).1.securityToken
      = some "token0" ∧
    (authenticate authedState 0 (some noTotpCreds) (fun _ => "123456")
        (some totpDemandResp) none).2.2 = Except.error AuthErr.missingTotp ∧
    (authenticate authedState 0 (some noTotpCreds) (fun _ => "123456")
        (some totpDemandResp) none).1.authenticated = false ∧
    (authenticate authedState 0 (some noTotpCreds) (fun _ => "123456")
        (some totpDemandResp) none).1.securityToken = some "token0" :=
  ⟨rfl, rfl, rfl, rfl, rfl, rfl⟩

theorem authenticate_failure_spec_witness :
    authenticate authedState 0 none (fun _ => "123456") none none =
      (authedState, [], Except.error AuthErr.missingCredentials) ∧
    jsTruthy ({ username := some "u" } : Credentials).username = true ∧
    jsTruthy ({ username := some "u" } : Credentials).password = false ∧
    authenticate authedState 0 (some { username := some "u" }) (fun _ => "123456")
        none none =
      (authedState, [], Except.error AuthErr.missingPassword) := by
  have h := authenticate_failure_spec authedState 0 { username := some "u" }
    (fun _ => "123456") none none
  exact ⟨h.1, by decide, by decide, h.2.2.1 (by decide) (by decide)⟩

/-- The frames sent by two identical back-to-back `subscribe` calls on a
connected transport. -/
def subscribeTwiceFrames : List Frame :=
  match subscribeMethod connectedState "quotes" (Ids.str "19002") 0 with
  | Except.ok r1 =>
    match subscribeMethod r1.2.1 "quotes" (Ids.str "19002") 1 with
    | Except.ok r2 => r1.2.2 ++ r2.2.2
    | Except.error _ => []
  | Except.error _ => []

/-- C3 (counterexample): on a connected transport two identical
`subscribe("quotes", "19002", …)` calls each send their own subscribe
control message — two messages in total before any reconnect, not
exactly one: `subscribe` never checks whether the path is already
desired. -/
theorem subscribe_twice_counterexample :
    subscribeMsgsOf subscribeTwiceFrames =
      [some "/quotes/19002", some "/quotes/19002"] ∧
    (subscribeMsgsOf subscribeTwiceFrames).length = 2 ∧
    (subscribeMsgsOf subscribeTwiceFrames).length ≠ 1 :=
  ⟨rfl, rfl, by decide⟩

theorem objFind_none_not_mem {α : Type} (m : List (String × α)) (k : String)
    (h : objFind m k = none) : k ∉ m.map Prod.fst := by
  induction m with
  | nil => simp
  | cons p ps ih =>
    simp only [objFind] at h
    by_cases hp : p.1 = k
    · simp [beq_iff_eq, hp] at h
    · simp only [beq_iff_eq, hp, if_false] at h
      simp only [List.map_cons, List.mem_cons]
      rintro (hk | hk)
      · exact hp hk.symm
      · exact ih h hk

theorem objSet_fresh {α : Type} (m : List (String × α)) (k : String) (v : α)
    (h : k ∉ m.map Prod.fst) : objSet m k v = m ++ [(k, v)] := by
  induction m with
  | nil => rfl
  | cons p ps ih =>
    simp only [List.map_cons, List.mem_cons, not_or] at h
    have hp : ¬ p.1 = k := fun hh => h.1 hh.symm
    simp [objSet, beq_iff_eq, hp, ih h.2]

theorem objSet_append_last {α : Type} (m : List (String × α)) (k : String) (v w : α)
    (h : k ∉ m.map Prod.fst) : objSet (m ++ [(k, v)]) k w = m ++ [(k, w)] := by
  induction m with
  | nil => simp [objSet]
  | cons p ps ih =>
    simp only [List.map_cons, List.mem_cons, not_or] at h
    have hp : ¬ p.1 = k := fun hh => h.1 hh.symm
    simp [objSet, beq_iff_eq, hp, ih h.2]

/-- The state after a `subscribe` call made while not connected: the
listener is registered and the path is recorded pending in the registry;
no message is sent. -/
def subscribeStateAfter (st : AvanzaState) (path : String) (cb : Nat) : AvanzaState :=
  { st with
      listeners := st.listeners ++ [(path, cb)],
      socketSubscriptions := objSet st.socketSubscriptions path none }

theorem subscribeMethod_str_notConnected (st : AvanzaState) (ch ids : String)
    (cb : Nat)
    (hpush : jsTruthy st.pushSubscriptionId = true)
    (hsock : ¬ st.socket = none)
    (hconn : st.socketConnected = false) :
    subscribeMethod st ch (Ids.str ids) cb =
      Except.ok ("/" ++ ch ++ "/" ++ ids,
        subscribeStateAfter st ("/" ++ ch ++ "/" ++ ids) cb, []) := by
  simp [subscribeMethod, resolveIds, hpush, hsock, socketSubscribe, hconn,
    subscribeStateAfter]

theorem objFind_append_self {α : Type} (m : List (String × α)) (k : String) (v : α)
    (h : k ∉ m.map Prod.fst) : objFind (m ++ [(k, v)]) k = some v := by
  induction m with
  | nil => simp [objFind]
  | cons p ps ih =>
    simp only [List.map_cons, List.mem_cons, not_or] at h
    have hp : ¬ p.1 = k := fun hh => h.1 hh.symm
    simp [objFind, beq_iff_eq, hp, ih h.2]

theorem count_filter_assoc (m : SubsMap) (c' : String) (path : String)
    (hnodup : (m.map Prod.fst).Nodup)
    (hfind : objFind m path = some none) :
    ((m.filter (fun p => p.2 != some c')).map
        (fun p => (some p.1 : Option String))).count (some path) = 1 := by
  induction m with
  | nil => simp [objFind] at hfind
  | cons p ps ih =>
    simp only [List.map_cons, List.nodup_cons] at hnodup
    obtain ⟨hpk, hps⟩ := hnodup
    by_cases hp : p.1 = path
    · have hv : p.2 = (none : Option String) := by
        rw [show objFind (p :: ps) path = some p.2 from by
          simp [objFind, beq_iff_eq, hp]] at hfind
        exact Option.some.inj hfind
      have htail0 : ((ps.filter (fun q => q.2 != some c')).map
          (fun q => (some q.1 : Option String))).count (some path) = 0 := by
        rw [List.count_eq_zero]
        intro hmem
        rw [List.mem_map] at hmem
        obtain ⟨q, hqmem, hqe⟩ := hmem
        rw [List.mem_filter] at hqmem
        have hq1 : q.1 = path := Option.some.inj hqe
        have hqk : q.1 ∈ ps.map Prod.fst := List.mem_map_of_mem _ hqmem.1
        exact hpk (hp ▸ hq1 ▸ hqk)
      simp [List.filter_cons, hv, List.count_cons, htail0, hp]
    · have hfind' : objFind ps path = some none := by
        rw [show objFind (p :: ps) path = objFind ps path from by
          simp [objFind, beq_iff_eq, hp]] at hfind
        exact hfind
      have hih := ih hps hfind'
      by_cases hf : (p.2 != some c') = true
      · have hne : (some p.1 : Option String) ≠ some path := by
          intro hh
          exact hp (Option.some.inj hh)
        simp [List.filter_cons, hf, List.count_cons, hih, hne, hp]
      · simp [List.filter_cons, hf, hih]

theorem resync_count_one (st2 : AvanzaState) (c' : String) (now1 now2 : Int)
    (path : String)
    (hconn : st2.socketConnected = false)
    (hopen : st2.socket = some ReadyState.opened)
    (hnodup : (st2.socketSubscriptions.map Prod.fst).Nodup)
    (hfind : objFind st2.socketSubscriptions path = some none) :
    (subscribeMsgsOf ((handleMessage st2 now1 [hsOkMsg c']).2.1 ++
        (handleMessage (handleMessage st2 now1 [hsOkMsg c']).1 now2
          [connOkMsg]).2.1)).count (some path) = 1 := by
  rw [resync_frames st2 c' now1 now2 hconn hopen hnodup]
  exact count_filter_assoc _ _ _ hnodup hfind

/-- C3 (amended): while connected, each `subscribe` call sends its own
subscribe message — two identical calls send two; when the transport is
not yet connected, two identical `subscribe` calls for a fresh path send
nothing immediately, the registry keeps a single pending entry for the
path, and exactly one subscribe message for that path goes out when the
transport next reaches Connected. -/
theorem subscribe_twice_resync_once (st : AvanzaState) (ch ids : String)
    (cb1 cb2 : Nat) (c' : String) (now1 now2 : Int)
    (hpush : jsTruthy st.pushSubscriptionId = true)
    (hconn : st.socketConnected = false)
    (hopen : st.socket = some ReadyState.opened)
    (hnodup : (st.socketSubscriptions.map Prod.fst).Nodup)
    (hnew : objFind st.socketSubscriptions ("/" ++ ch ++ "/" ++ ids) = none) :
    subscribeMethod st ch (Ids.str ids) cb1 =
      Except.ok ("/" ++ ch ++ "/" ++ ids,
        subscribeStateAfter st ("/" ++ ch ++ "/" ++ ids) cb1, []) ∧
    subscribeMethod (subscribeStateAfter st ("/" ++ ch ++ "/" ++ ids) cb1)
        ch (Ids.str ids) cb2 =
      Except.ok ("/" ++ ch ++ "/" ++ ids,
        subscribeStateAfter (subscribeStateAfter st ("/" ++ ch ++ "/" ++ ids) cb1)
          ("/" ++ ch ++ "/" ++ ids) cb2, []) ∧
    (subscribeMsgsOf
        ((handleMessage
            (subscribeStateAfter
              (subscribeStateAfter st ("/" ++ ch ++ "/" ++ ids) cb1)
              ("/" ++ ch ++ "/" ++ ids) cb2) now1 [hsOkMsg c']).2.1 ++
          (handleMessage
            (handleMessage
              (subscribeStateAfter
                (subscribeStateAfter st ("/" ++ ch ++ "/" ++ ids) cb1)
                ("/" ++ ch ++ "/" ++ ids) cb2) now1 [hsOkMsg c']).1 now2
            [connOkMsg]).2.1)).count
      (some ("/" ++ ch ++ "/" ++ ids)) = 1 := by
  have hkey : ("/" ++ ch ++ "/" ++ ids) ∉ st.socketSubscriptions.map Prod.fst :=
    objFind_none_not_mem _ _ hnew
  have hsock : ¬ st.socket = none := by rw [hopen]; simp
  have h1 := subscribeMethod_str_notConnected st ch ids cb1 hpush hsock hconn
  have h2 := subscribeMethod_str_notConnected
    (subscribeStateAfter st ("/" ++ ch ++ "/" ++ ids) cb1) ch ids cb2 hpush hsock hconn
  have e1 : objSet st.socketSubscriptions ("/" ++ ch ++ "/" ++ ids) none =
      st.socketSubscriptions ++ [("/" ++ ch ++ "/" ++ ids, none)] :=
    objSet_fresh _ _ _ hkey
  have e2 : (subscribeStateAfter
        (subscribeStateAfter st ("/" ++ ch ++ "/" ++ ids) cb1)
        ("/" ++ ch ++ "/" ++ ids) cb2).socketSubscriptions =
      st.socketSubscriptions ++ [("/" ++ ch ++ "/" ++ ids, none)] := by
    show objSet (objSet st.socketSubscriptions ("/" ++ ch ++ "/" ++ ids) none)
        ("/" ++ ch ++ "/" ++ ids) none = _
    rw [e1]
    exact objSet_append_last _ _ _ _ hkey
  have hnodup2 : ((subscribeStateAfter
        (subscribeStateAfter st ("/" ++ ch ++ "/" ++ ids) cb1)
        ("/" ++ ch ++ "/" ++ ids) cb2).socketSubscriptions.map Prod.fst).Nodup := by
    rw [e2, List.map_append]
    rw [List.nodup_append]
    refine ⟨hnodup, List.nodup_singleton _, ?_⟩
    intro a ha hb
    simp only [List.map_cons, List.map_nil, List.mem_singleton] at hb
    exact hkey (hb ▸ ha)
  have hfind2 : objFind (subscribeStateAfter
        (subscribeStateAfter st ("/" ++ ch ++ "/" ++ ids) cb1)
        ("/" ++ ch ++ "/" ++ ids) cb2).socketSubscriptions
        ("/" ++ ch ++ "/" ++ ids) = some none := by
    rw [e2]
    exact objFind_append_self _ _ _ hkey
  exact ⟨h1, h2, resync_count_one _ c' now1 now2 _ hconn hopen hnodup2 hfind2⟩

/-- An authenticated instance whose socket is open but whose Bayeux
connect loop has not yet come up. -/
def preConnState : AvanzaState :=
  { initState with socket := some ReadyState.opened,
                   pushSubscriptionId := some "push1" }

theorem subscribe_twice_resync_once_witness :
    (subscribeMsgsOf
        ((handleMessage
            (subscribeStateAfter
              (subscribeStateAfter preConnState ("/" ++ "quotes" ++ "/" ++ "19002") 0)
              ("/" ++ "quotes" ++ "/" ++ "19002") 1) 0 [hsOkMsg "cid1"]).2.1 ++
          (handleMessage
            (handleMessage
              (subscribeStateAfter
                (subscribeStateAfter preConnState ("/" ++ "quotes" ++ "/" ++ "19002") 0)
                ("/" ++ "quotes" ++ "/" ++ "19002") 1) 0 [hsOkMsg "cid1"]).1 1
            [connOkMsg]).2.1)).count
      (some ("/" ++ "quotes" ++ "/" ++ "19002")) = 1 :=
  (subscribe_twice_resync_once preConnState "quotes" "19002" 0 1 "cid1" 0 1
    (by decide) rfl rfl (by decide) (by decide)).2.2

/-- A fully protocol-conforming event trace: authenticate, subscribe,
socket open, handshake, connect, subscribe acknowledgment — then a
liveness-monitor-forced restart. -/
def c6Trace : List (Int × Ev) :=
  [ (0, Ev.authOk { securityToken := some "tok1",
                    pushSubscriptionId := some "push1",
                    customerId := some "cust1" }),
    (1, Ev.subscribeCall "quotes" (Ids.str "19002") 7),
    (2, Ev.openEvt),
    (3, Ev.hsTimer),
    (4, Ev.msg [hsOkMsg "cid1"]),
    (5, Ev.msg [connOkMsg]),
    (6, Ev.msg [subAckMsg "/quotes/19002"]),
    (99999, Ev.monitorTick) ]

/-- C6 (counterexample): after a forced restart the registry entry is
still mapped to the unchanged current clientId while the Transport is no
longer Connected — the no-confirmed-while-disconnected invariant does
not hold of the lingering state, because `_socketRestart` clears the
Connected flag but neither the clientId nor the registry. -/
theorem confirmed_while_disconnected_counterexample :
    ((runEvents initState c6Trace).1).socketConnected = false ∧
    ((runEvents initState c6Trace).1).socketClientId = some "cid1" ∧
    objFind ((runEvents initState c6Trace).1).socketSubscriptions
      ("/" ++ "quotes" ++ "/" ++ "19002") = some (some "cid1") :=
  ⟨rfl, rfl, rfl⟩

theorem objFind_of_mem_nodup {α : Type} (m : List (String × α)) (p : String × α)
    (hnodup : (m.map Prod.fst).Nodup) (hmem : p ∈ m) :
    objFind m p.1 = some p.2 := by
  induction m with
  | nil => cases hmem
  | cons q qs ih =>
    simp only [List.map_cons, List.nodup_cons] at hnodup
    obtain ⟨hqk, hqs⟩ := hnodup
    rcases List.mem_cons.mp hmem with hpq | hmem'
    · subst hpq
      simp [objFind]
    · have hne : ¬ q.1 = p.1 := by
        intro hh
        exact hqk (hh ▸ List.mem_map_of_mem Prod.fst hmem')
      simp [objFind, beq_iff_eq, hne, ih hqs hmem']

/-- C6 (amended): at a transition into Connected the resync loop sends
at most one subscribe message per registered path and none for a path
already confirmed under the current clientId; and the only transition
that marks a subscription confirmed — a successful subscribe
acknowledgment — records exactly the clientId current at processing
time.  (After a forced restart, entries stay mapped to the previous —
still current — clientId while the Transport is not Connected, so the
original state invariant holds only for fresh confirmations, not for the
lingering registry.) -/
theorem resubscribe_once_and_ack_records_clientId (st : AvanzaState) (c' : String)
    (now : Int) (s : String)
    (hconn : st.socketConnected = false)
    (hopen : st.socket = some ReadyState.opened)
    (hcid : st.socketClientId = some c')
    (hnodup : (st.socketSubscriptions.map Prod.fst).Nodup) :
    (subscribeMsgsOf (handleOne st now connOkMsg).2.1).Nodup ∧
    (∀ k, objFind st.socketSubscriptions k = some (some c') →
      (some k : Option String) ∉ subscribeMsgsOf (handleOne st now connOkMsg).2.1) ∧
    handleOne st now (subAckMsg s) =
      ({ st with socketSubscriptions := objSet st.socketSubscriptions s st.socketClientId }, [], []) := by
  have hframes := handleOne_connOk_frames st now hconn hopen hnodup
  refine ⟨?_, ?_, handleOne_subAck st now s⟩
  · rw [hframes]
    have : (st.socketSubscriptions.filter (fun p => p.2 != st.socketClientId)).map
        (fun p => (some p.1 : Option String)) =
        ((st.socketSubscriptions.filter
          (fun p => p.2 != st.socketClientId)).map Prod.fst).map
          (fun k => (some k : Option String)) := by
      rw [List.map_map]
      rfl
    rw [this]
    refine List.Nodup.map (fun a b hab => ?_) ?_
    · exact Option.some.inj hab
    · exact List.Nodup.sublist
        (List.Sublist.map Prod.fst (List.filter_sublist _)) hnodup
  · intro k hk
    rw [hframes]
    intro hmem
    rw [List.mem_map] at hmem
    obtain ⟨p, hpmem, hpe⟩ := hmem
    rw [List.mem_filter] at hpmem
    have hk1 : p.1 = k := Option.some.inj hpe
    have hfind : objFind st.socketSubscriptions p.1 = some p.2 :=
      objFind_of_mem_nodup _ _ hnodup hpmem.1
    rw [hk1, hk] at hfind
    have hval : p.2 = some c' := (Option.some.inj hfind).symm
    rw [hval, hcid] at hpmem
    simp at hpmem

theorem resubscribe_once_and_ack_records_clientId_witness :
    (subscribeMsgsOf (handleOne resyncState 0 connOkMsg).2.1).Nodup ∧
    (some "/quotes/1" : Option String) ∉
      subscribeMsgsOf (handleOne resyncState 0 connOkMsg).2.1 ∧
    handleOne resyncState 0 (subAckMsg "/x") =
      ({ resyncState with socketSubscriptions := objSet resyncState.socketSubscriptions "/x" resyncState.socketClientId }, [], []) := by
  have h := resubscribe_once_and_ack_records_clientId resyncState "oldC" 0 "/x"
    rfl rfl rfl (by decide)
  exact ⟨h.1, h.2.1 "/quotes/1" rfl, h.2.2⟩
